import Mathlib

/-!
Shallow embedding of `pkg/auth/cell.go` (Cilium's mesh-authentication
wiring cell).  The file wires the auth manager, the auth-map garbage
collector and their event sources into the process lifecycle.  The
side effects of the wiring functions (lifecycle hooks appended, jobs
added to the job group, signal handlers registered, log lines emitted)
are modelled as an explicit effect state threaded through pure Lean
functions.  External collaborators that can fail (`newAuthManager`,
`SignalManager.RegisterHandler`, `authMapCache.restoreCache`) are
modelled as oracle parameters carrying their outcome (`none` = success,
`some e` = the error message `e`), since their implementations live
outside this file.
-/

namespace AuthCell

/-- Go `time` package duration constants, in nanoseconds
(`time.Duration` is an integer nanosecond count). -/
def timeNanosecond : Int := 1

/-- One microsecond in nanoseconds. -/
def timeMicrosecond : Int := 1000 * timeNanosecond

/-- One millisecond in nanoseconds. -/
def timeMillisecond : Int := 1000 * timeMicrosecond

/-- One second in nanoseconds. -/
def timeSecond : Int := 1000 * timeMillisecond

/-- One minute in nanoseconds. -/
def timeMinute : Int := 60 * timeSecond

/-- The `config` struct of `pkg/auth/cell.go`. -/
structure config where
  MeshAuthEnabled : Bool
  MeshAuthQueueSize : Int
  MeshAuthGCInterval : Int
deriving Repr, DecidableEq

/-- The defaults registered by the module with
`cell.Config(config{MeshAuthEnabled: true, MeshAuthQueueSize: 1024,
MeshAuthGCInterval: 5 * time.Minute})`. -/
def cellConfigDefaults : config :=
  { MeshAuthEnabled := true
    MeshAuthQueueSize := 1024
    MeshAuthGCInterval := 5 * timeMinute }

/-- A command-line flag definition registered on a pflag FlagSet,
recording the flag kind, name, default value and usage string. -/
inductive FlagDef where
  | boolFlag (name : String) (value : Bool) (usage : String)
  | intFlag (name : String) (value : Int) (usage : String)
  | durationFlag (name : String) (value : Int) (usage : String)
deriving Repr, DecidableEq

/-- The `Flags` method of `config`: the flags it registers on the
given FlagSet, with the receiver's field values as defaults. -/
def config.Flags (r : config) : List FlagDef :=
  [ FlagDef.boolFlag "mesh-auth-enabled" r.MeshAuthEnabled
      "Enable authentication processing & garbage collection"
  , FlagDef.intFlag "mesh-auth-queue-size" r.MeshAuthQueueSize
      "Queue size for the auth manager"
  , FlagDef.durationFlag "mesh-auth-gc-interval" r.MeshAuthGCInterval
      "Interval in which auth entries are attempted to be garbage collected" ]

/-- A Go channel value as relevant to this cell: either the
`signalChannel` created by `make(chan signalAuthKey, config.MeshAuthQueueSize)`
(its constructor argument is the capacity passed to `make`), or a
rotated-identities channel returned by an auth handler's
`subscribeToRotatedIdentities`, identified by an abstract id. -/
inductive Chan where
  | signalChan (capacity : Int)
  | rotatedIdentities (id : Nat)
deriving Repr, DecidableEq

/-- An auth handler (the non-nil case of the Go `authHandler`
interface).  Only the observable used by this file is modelled: which
channel (if any) `subscribeToRotatedIdentities` returns.  `none`
models a handler whose subscription method returns a nil channel. -/
structure authHandlerImpl where
  rotatedIdentitiesChannel : Option Nat
deriving Repr, DecidableEq

/-- The `subscribeToRotatedIdentities` method: returns the handler's
rotated-identities channel, or `none` for a nil channel. -/
def authHandlerImpl.subscribeToRotatedIdentities (h : authHandlerImpl) : Option Chan :=
  h.rotatedIdentitiesChannel.map Chan.rotatedIdentities

/-- A Go `authHandler` interface value, which may be nil (`none`). -/
abbrev authHandler := Option authHandlerImpl

/-- The handler methods passed to `job.Observer` in this file. -/
inductive ObserverFn where
  | handleCertificateRotationEvent
  | handleAuthRequest
  | handleIdentityChange
  | handleCiliumNodeEvent
deriving Repr, DecidableEq

/-- The handler methods passed to `job.Timer` in this file. -/
inductive TimerFn where
  | cleanup
deriving Repr, DecidableEq

/-- The event source given to an observer job: `stream.FromChannel(ch)`
for a Go channel `ch`, the injected identity-change observable, or the
injected CiliumNode resource. -/
inductive EventSource where
  | fromChannel (ch : Chan)
  | identityChangesSource
  | nodeChangesSource
deriving Repr, DecidableEq

/-- A job added to the cell's job group via `jobGroup.Add`. -/
inductive Job where
  | observer (name : String) (fn : ObserverFn) (src : EventSource)
  | timer (name : String) (fn : TimerFn) (interval : Int)
deriving Repr, DecidableEq

/-- The signal kinds of `pkg/signal` used by this file. -/
inductive SignalType where
  | SignalAuthRequired
deriving Repr, DecidableEq

/-- An item appended to `params.Lifecycle`: the `hive.Hook` whose
OnStart calls `mapCache.restoreCache()`, or the job group. -/
inductive LifecycleItem where
  | restoreCacheHook
  | jobGroupItem
deriving Repr, DecidableEq

/-- The observable side effects of the wiring functions: the lifecycle
items appended (in order), the jobs added to the job group (in order),
the handlers registered with the signal manager, and the log lines
emitted. -/
structure EffectState where
  lifecycle : List LifecycleItem
  jobGroupJobs : List Job
  signalHandlers : List (Chan × SignalType)
  logs : List String
deriving Repr, DecidableEq

/-- The empty effect state at entry to `registerAuthManager`. -/
def emptyState : EffectState :=
  { lifecycle := [], jobGroupJobs := [], signalHandlers := [], logs := [] }

/-- The `authManagerParams` fields whose values influence the control
flow and the recorded effects of `registerAuthManager`.  `CiliumNodes`
records whether the injected CiliumNode resource is non-nil.  The two
oracle fields carry the outcomes of the external calls
`newAuthManager(...)` and `SignalManager.RegisterHandler(...)`
(`none` = success). -/
structure authManagerParams where
  Config : config
  AuthHandlers : List authHandler
  CiliumNodes : Bool
  newAuthManagerErr : Option String
  smRegisterErr : Option String
deriving Repr, DecidableEq

/-- The OnStart function of the hook appended by `registerAuthManager`:
given the outcome of `mapCache.restoreCache()` (`none` = success), it
returns the hook's error (wrapping the restore error, or nil). -/
def restoreCacheHookOnStart (restoreCacheResult : Option String) : Option String :=
  match restoreCacheResult with
  | some e => some ("failed to restore auth map cache: " ++ e)
  | none => none

/-- `registerReAuthenticationJob(jobGroup, mgr, authHandlers)`: for
each non-nil handler whose `subscribeToRotatedIdentities()` is
non-nil, adds an observer job running
`mgr.handleCertificateRotationEvent` over that channel.  The job
group's job list is the state threaded through the loop. -/
def registerReAuthenticationJob (jobGroup : List Job) (authHandlers : List authHandler) :
    List Job :=
  match authHandlers with
  | [] => jobGroup
  | ah :: rest =>
    match ah with
    | some h =>
      match h.subscribeToRotatedIdentities with
      | some ch =>
        registerReAuthenticationJob
          (jobGroup ++ [Job.observer "auth re-authentication"
            ObserverFn.handleCertificateRotationEvent (EventSource.fromChannel ch)])
          rest
      | none => registerReAuthenticationJob jobGroup rest
    | none => registerReAuthenticationJob jobGroup rest

/-- `registerSignalAuthenticationJob(jobGroup, mgr, sm, config)`:
creates `signalChannel` with capacity `config.MeshAuthQueueSize`,
registers it with the signal manager for `signal.SignalAuthRequired`
(failure is wrapped and returned, with no effect recorded), then adds
the observer job running `mgr.handleAuthRequest` over the channel. -/
def registerSignalAuthenticationJob (st : EffectState) (cfg : config)
    (smRegisterErr : Option String) : Option String × EffectState :=
  let signalChannel := Chan.signalChan cfg.MeshAuthQueueSize
  match smRegisterErr with
  | some e =>
    (some ("failed to set up signal channel for datapath authentication required events: "
        ++ e), st)
  | none =>
    let st1 := { st with
      signalHandlers := st.signalHandlers ++ [(signalChannel, SignalType.SignalAuthRequired)] }
    let st2 := { st1 with
      jobGroupJobs := st1.jobGroupJobs ++ [Job.observer "auth request-authentication"
        ObserverFn.handleAuthRequest (EventSource.fromChannel signalChannel)] }
    (none, st2)

/-- `registerGCJobs(jobGroup, mapGC, cfg, nodeChanges, identityChanges)`:
adds the identity-change observer, the node-change observer (only when
the CiliumNode resource is non-nil, i.e. the k8s client is enabled),
and the periodic cleanup timer at `cfg.MeshAuthGCInterval`. -/
def registerGCJobs (st : EffectState) (cfg : config) (nodeChangesNonNil : Bool) :
    EffectState :=
  let st1 := { st with
    jobGroupJobs := st.jobGroupJobs ++ [Job.observer "auth gc-identity-events"
      ObserverFn.handleIdentityChange EventSource.identityChangesSource] }
  let st2 :=
    if nodeChangesNonNil then
      { st1 with
        jobGroupJobs := st1.jobGroupJobs ++ [Job.observer "auth gc-node-events"
          ObserverFn.handleCiliumNodeEvent EventSource.nodeChangesSource] }
    else st1
  { st2 with
    jobGroupJobs := st2.jobGroupJobs ++ [Job.timer "auth gc-cleanup"
      TimerFn.cleanup cfg.MeshAuthGCInterval] }

/-- `registerAuthManager(params)`: if mesh auth is disabled, logs and
returns nil with no further effect.  Otherwise it constructs the
components (a `newAuthManager` failure is wrapped and returned),
appends the restore-cache hook and then the job group to the
lifecycle, registers the signal-authentication job (failure wrapped
and returned), the re-authentication jobs and the GC jobs. -/
def registerAuthManager (params : authManagerParams) : Option String × EffectState :=
  if !params.Config.MeshAuthEnabled then
    (none, { emptyState with logs := emptyState.logs ++ ["Authentication processing is disabled"] })
  else
    match params.newAuthManagerErr with
    | some e => (some ("failed to create auth manager: " ++ e), emptyState)
    | none =>
      let st1 := { emptyState with
        lifecycle := emptyState.lifecycle ++ [LifecycleItem.restoreCacheHook] }
      let st2 := { st1 with lifecycle := st1.lifecycle ++ [LifecycleItem.jobGroupItem] }
      match registerSignalAuthenticationJob st2 params.Config params.smRegisterErr with
      | (some e, st3) => (some ("failed to register signal authentication job: " ++ e), st3)
      | (none, st3) =>
        let st4 := { st3 with
          jobGroupJobs := registerReAuthenticationJob st3.jobGroupJobs params.AuthHandlers }
        let st5 := registerGCJobs st4 params.Config params.CiliumNodes
        (none, st5)

/-- The re-authentication job contributed by one handler slot: `none`
for a nil handler or a nil subscription channel, otherwise the
certificate-rotation observer job over the handler's channel. -/
def reAuthJob (ah : authHandler) : Option Job :=
  match ah with
  | none => none
  | some h =>
    h.subscribeToRotatedIdentities.map fun ch =>
      Job.observer "auth re-authentication"
        ObserverFn.handleCertificateRotationEvent (EventSource.fromChannel ch)

/-- Loop characterization of `registerReAuthenticationJob`: it appends
to the job group exactly the jobs contributed by each handler slot. -/
theorem registerReAuthenticationJob_eq_filterMap (jobGroup : List Job)
    (hs : List authHandler) :
    registerReAuthenticationJob jobGroup hs = jobGroup ++ hs.filterMap reAuthJob := by
  induction hs generalizing jobGroup with
  | nil => simp [registerReAuthenticationJob]
  | cons ah rest ih =>
    cases ah with
    | none => simp [registerReAuthenticationJob, reAuthJob, ih]
    | some h =>
      cases hch : h.subscribeToRotatedIdentities with
      | none => simp [registerReAuthenticationJob, reAuthJob, hch, ih]
      | some ch => simp [registerReAuthenticationJob, reAuthJob, hch, ih]

/-- Full effect of a successful `registerAuthManager` run: the
restore-cache hook then the job group on the lifecycle, the signal
channel registered for `SignalAuthRequired`, and the job group holding
the signal-authentication observer, the per-handler re-authentication
observers, and the GC observers and timer. -/
theorem registerAuthManager_success (params : authManagerParams)
    (hEnabled : params.Config.MeshAuthEnabled = true)
    (hMgr : params.newAuthManagerErr = none)
    (hSm : params.smRegisterErr = none) :
    registerAuthManager params =
      (none,
        { lifecycle := [LifecycleItem.restoreCacheHook, LifecycleItem.jobGroupItem]
          jobGroupJobs :=
            Job.observer "auth request-authentication" ObserverFn.handleAuthRequest
                (EventSource.fromChannel (Chan.signalChan params.Config.MeshAuthQueueSize))
              :: (params.AuthHandlers.filterMap reAuthJob
                ++ [Job.observer "auth gc-identity-events"
                      ObserverFn.handleIdentityChange EventSource.identityChangesSource]
                ++ (if params.CiliumNodes then
                      [Job.observer "auth gc-node-events"
                        ObserverFn.handleCiliumNodeEvent EventSource.nodeChangesSource]
                    else [])
                ++ [Job.timer "auth gc-cleanup" TimerFn.cleanup
                      params.Config.MeshAuthGCInterval])
          signalHandlers :=
            [(Chan.signalChan params.Config.MeshAuthQueueSize, SignalType.SignalAuthRequired)]
          logs := [] }) := by
  obtain ⟨cfg, hs, nodes, nme, sme⟩ := params
  simp only at hEnabled hMgr hSm
  subst hMgr hSm
  cases nodes <;>
    simp [registerAuthManager, hEnabled, registerSignalAuthenticationJob,
      registerGCJobs, registerReAuthenticationJob_eq_filterMap, emptyState]

/-- Claim C1: the cache-restore lifecycle hook is appended to the
lifecycle before the job group, and the job group contains the
signal-authentication observer; so on startup `restoreCache` runs (and
must succeed) before the auth manager begins consuming signal
traffic. -/
theorem restore_hook_precedes_signal_jobs (params : authManagerParams)
    (hEnabled : params.Config.MeshAuthEnabled = true)
    (hMgr : params.newAuthManagerErr = none)
    (hSm : params.smRegisterErr = none) :
    (registerAuthManager params).2.lifecycle =
        [LifecycleItem.restoreCacheHook, LifecycleItem.jobGroupItem] ∧
      Job.observer "auth request-authentication" ObserverFn.handleAuthRequest
          (EventSource.fromChannel (Chan.signalChan params.Config.MeshAuthQueueSize))
        ∈ (registerAuthManager params).2.jobGroupJobs := by
  rw [registerAuthManager_success params hEnabled hMgr hSm]
  exact ⟨rfl, List.mem_cons_self _ _⟩

/-- Witness for C1 at a concrete parameter set. -/
theorem restore_hook_precedes_signal_jobs_witness :
    (registerAuthManager ⟨cellConfigDefaults, [], true, none, none⟩).2.lifecycle =
        [LifecycleItem.restoreCacheHook, LifecycleItem.jobGroupItem] ∧
      Job.observer "auth request-authentication" ObserverFn.handleAuthRequest
          (EventSource.fromChannel (Chan.signalChan cellConfigDefaults.MeshAuthQueueSize))
        ∈ (registerAuthManager ⟨cellConfigDefaults, [], true, none, none⟩).2.jobGroupJobs :=
  restore_hook_precedes_signal_jobs ⟨cellConfigDefaults, [], true, none, none⟩ rfl rfl rfl

/-- Claim C2: when `restoreCache` fails with error `e`, the OnStart
hook returns the non-nil wrapping error, aborting startup; only a
successful restore continues (the hook returns nil). -/
theorem restore_failure_aborts_start (e : String) :
    restoreCacheHookOnStart (some e) = some ("failed to restore auth map cache: " ++ e) ∧
      restoreCacheHookOnStart (some e) ≠ none ∧
      restoreCacheHookOnStart none = none := by
  simp [restoreCacheHookOnStart]

/-- Claim C3: with `MeshAuthEnabled = false`, `registerAuthManager`
returns nil after logging, with no lifecycle hook appended, no job
added and no signal handler registered. -/
theorem disabled_no_effects (params : authManagerParams)
    (hDisabled : params.Config.MeshAuthEnabled = false) :
    registerAuthManager params =
      (none,
        { lifecycle := []
          jobGroupJobs := []
          signalHandlers := []
          logs := ["Authentication processing is disabled"] }) := by
  simp [registerAuthManager, hDisabled, emptyState]

/-- Witness for C3 at a concrete parameter set. -/
theorem disabled_no_effects_witness :
    registerAuthManager
        ⟨⟨false, 1024, 5 * timeMinute⟩, [some ⟨some 7⟩], true, none, none⟩ =
      (none,
        { lifecycle := []
          jobGroupJobs := []
          signalHandlers := []
          logs := ["Authentication processing is disabled"] }) :=
  disabled_no_effects ⟨⟨false, 1024, 5 * timeMinute⟩, [some ⟨some 7⟩], true, none, none⟩ rfl

/-- Claim C4: `registerReAuthenticationJob` adds exactly one
certificate-rotation observer job per non-nil handler with a non-nil
rotated-identities subscription, over that subscription's channel; a
nil handler or a nil subscription contributes no job. -/
theorem reauth_jobs_characterization :
    (∀ (jobGroup : List Job) (hs : List authHandler),
        registerReAuthenticationJob jobGroup hs = jobGroup ++ hs.filterMap reAuthJob) ∧
      (∀ id : Nat,
        reAuthJob (some ⟨some id⟩) =
          some (Job.observer "auth re-authentication"
            ObserverFn.handleCertificateRotationEvent
            (EventSource.fromChannel (Chan.rotatedIdentities id)))) ∧
      reAuthJob (some ⟨none⟩) = none ∧
      reAuthJob none = none := by
  refine ⟨registerReAuthenticationJob_eq_filterMap, fun id => ?_, ?_, ?_⟩ <;>
    simp [reAuthJob, authHandlerImpl.subscribeToRotatedIdentities]

/-- Counterexample to C5 as stated: when the injected CiliumNode
resource is nil, `registerGCJobs` registers only two jobs and no
node-change observer. -/
theorem gc_three_jobs_counterexample :
    Job.observer "auth gc-node-events" ObserverFn.handleCiliumNodeEvent
        EventSource.nodeChangesSource
        ∉ (registerGCJobs emptyState cellConfigDefaults false).jobGroupJobs ∧
      (registerGCJobs emptyState cellConfigDefaults false).jobGroupJobs.length = 2 := by
  constructor
  · intro hmem
    simp [registerGCJobs, emptyState] at hmem
  · rfl

/-- Claim C5 (amended): `registerGCJobs` always registers the
identity-change observer invoking `handleIdentityChange` and the
periodic timer invoking `cleanup` at `cfg.MeshAuthGCInterval`, each as
its own job; the node-change observer invoking `handleCiliumNodeEvent`
is registered as its own job exactly when the CiliumNode resource is
non-nil. -/
theorem gc_jobs_amended (st : EffectState) (cfg : config) (nodeChangesNonNil : Bool) :
    (registerGCJobs st cfg nodeChangesNonNil).jobGroupJobs =
      st.jobGroupJobs
        ++ [Job.observer "auth gc-identity-events"
              ObserverFn.handleIdentityChange EventSource.identityChangesSource]
        ++ (if nodeChangesNonNil then
              [Job.observer "auth gc-node-events"
                ObserverFn.handleCiliumNodeEvent EventSource.nodeChangesSource]
            else [])
        ++ [Job.timer "auth gc-cleanup" TimerFn.cleanup cfg.MeshAuthGCInterval] := by
  cases nodeChangesNonNil <;> simp [registerGCJobs]

/-- Claim C6: on successful registration, `registerSignalAuthenticationJob`
creates the receive queue as a channel of capacity exactly
`cfg.MeshAuthQueueSize`, registers that channel with the signal
manager for the single `SignalAuthRequired` signal kind, and adds the
observer job consuming it with `handleAuthRequest`. -/
theorem signal_job_wiring (st : EffectState) (cfg : config) :
    registerSignalAuthenticationJob st cfg none =
      (none,
        { st with
          signalHandlers := st.signalHandlers
            ++ [(Chan.signalChan cfg.MeshAuthQueueSize, SignalType.SignalAuthRequired)]
          jobGroupJobs := st.jobGroupJobs
            ++ [Job.observer "auth request-authentication" ObserverFn.handleAuthRequest
                  (EventSource.fromChannel (Chan.signalChan cfg.MeshAuthQueueSize))] }) := by
  rfl

/-- Claim C7: `registerAuthManager` returns a non-nil error exactly
when mesh auth is enabled and either constructing the auth manager or
registering the signal handler fails. -/
theorem register_error_iff (params : authManagerParams) :
    (registerAuthManager params).1 ≠ none ↔
      params.Config.MeshAuthEnabled = true ∧
        (params.newAuthManagerErr ≠ none ∨ params.smRegisterErr ≠ none) := by
  obtain ⟨⟨enabled, qs, gci⟩, hs, nodes, nme, sme⟩ := params
  cases enabled <;> cases nme <;> cases sme <;>
    simp [registerAuthManager, registerSignalAuthenticationJob]

/-- Claim C8: the registered configuration defaults are a queue size
of 1024 and a GC interval of 5 minutes (300000000000 nanoseconds). -/
theorem config_defaults_values :
    cellConfigDefaults.MeshAuthQueueSize = 1024 ∧
      cellConfigDefaults.MeshAuthGCInterval = 5 * timeMinute ∧
      cellConfigDefaults.MeshAuthGCInterval = 300000000000 := by
  refine ⟨rfl, rfl, ?_⟩
  decide

/-- Claim C9: nil entries in the handler list are skipped by
`registerReAuthenticationJob`: removing them changes nothing, so they
produce no job and cause no failure. -/
theorem reauth_nil_handlers_skipped (jobGroup : List Job)
    (l1 l2 : List authHandler) :
    registerReAuthenticationJob jobGroup (l1 ++ none :: l2) =
      registerReAuthenticationJob jobGroup (l1 ++ l2) := by
  simp [registerReAuthenticationJob_eq_filterMap, reAuthJob]

/-- Claim C10: the default configuration enables mesh authentication,
and the `mesh-auth-enabled` flag is registered with that default, so
processing is on unless explicitly disabled via the flag. -/
theorem mesh_auth_enabled_default :
    cellConfigDefaults.MeshAuthEnabled = true ∧
      FlagDef.boolFlag "mesh-auth-enabled" true
          "Enable authentication processing & garbage collection"
        ∈ cellConfigDefaults.Flags := by
  refine ⟨rfl, ?_⟩
  simp [config.Flags, cellConfigDefaults]

end AuthCell
